import Mathlib

/-!
Verification of the stock-ledger core of an inventory/order-management
backend (products, sales orders, purchase orders stored in a document
database and manipulated through CRUD HTTP route handlers).

Modelling conventions:
* each database collection is a partial map from a numeric id to a
  document (`ProductId → Option Product`, and similarly for orders and
  purchase orders); `findById` is application of the map, `save` is a
  pointwise update;
* each route handler becomes a function from the state (all three
  collections) plus the request data to the updated state together with
  either a result or a structured error; a handler that performed writes
  before failing returns the partially-updated state, matching the fact
  that each `save` in the source is committed immediately;
* the generated order / PO numbers are random in the source, so the id
  under which the new document is stored is taken as an explicit
  parameter;
* JavaScript numbers are modelled as `Int` (prices, stock counts and
  quantities in this code are integral), dates as `Nat` timestamps.
-/

namespace Inventory

/-- Product id (Mongo ObjectId, modelled as a natural number). -/
abbrev ProductId := Nat

/-- Product document.  Modelled from the spec: `product.model` itself is
not among the sources, but the route handlers read exactly `name`,
`price` and `stock`, and the spec (§3) gives this shape; fields the
stock core never touches (sku, category, description, ...) are omitted. -/
structure Product where
  name : String
  price : Int
  stock : Int
  deriving Repr, DecidableEq

/-- The products collection. -/
abbrev PStore := ProductId → Option Product

/-- `Product.findById` on the products collection. -/
def findById (s : PStore) (i : ProductId) : Option Product := s i

/-- `product.save()`: write the document back under its id. -/
def saveProduct (s : PStore) (i : ProductId) (p : Product) : PStore :=
  fun j => if j = i then some p else s j

/-- Order status enum.  Modelled from the spec (§3): `order.model` is not
among the sources; the route handlers treat the status as an opaque
value, and the spec fixes the enum. -/
inductive OrderStatus where
  | pending
  | processing
  | shipped
  | delivered
  | cancelled
  deriving Repr, DecidableEq

/-- A persisted order line item (snapshot of product name and price). -/
structure OrderItem where
  product : ProductId
  productName : String
  quantity : Int
  price : Int
  deriving Repr, DecidableEq

/-- Order document (fields the stock core touches). -/
structure Order where
  user : Nat
  items : List OrderItem
  totalAmount : Int
  status : OrderStatus
  deriving Repr, DecidableEq

abbrev OrderId := Nat

/-- The orders collection. -/
abbrev OStore := OrderId → Option Order

def saveOrder (s : OStore) (i : OrderId) (o : Order) : OStore :=
  fun j => if j = i then some o else s j

/-- Purchase-order status enum (`purchaseorder.model`). -/
inductive POStatus where
  | pending
  | approved
  | received
  | cancelled
  deriving Repr, DecidableEq

/-- A purchase-order line item (`purchaseOrderItemSchema`). -/
structure POItem where
  product : ProductId
  productName : String
  quantity : Int
  unitPrice : Int
  deriving Repr, DecidableEq

/-- Purchase-order document (`purchaseOrderSchema`), fields the stock
core touches; `receivedDate` is `none` until first marked received. -/
structure PurchaseOrder where
  supplier : String
  items : List POItem
  totalAmount : Int
  status : POStatus
  createdBy : Nat
  receivedDate : Option Nat
  notes : String
  deriving Repr, DecidableEq

abbrev POId := Nat

/-- The purchase-orders collection. -/
abbrev POStore := POId → Option PurchaseOrder

def savePO (s : POStore) (i : POId) (po : PurchaseOrder) : POStore :=
  fun j => if j = i then some po else s j

/-- The whole database state. -/
structure State where
  products : PStore
  orders : OStore
  pos : POStore

/-- Structured errors surfaced by the handlers (spec §7). -/
inductive Err where
  | notFound
  | productNotFound (id : ProductId)
  | emptyOrder
  | insufficientStock (productName : String)
  | forbidden
  | invalidState
  deriving Repr, DecidableEq

/-- A requested order line item as sent by the client.  The handler reads
only `item.product` and `item.quantity`; a client-supplied `price` field
is carried here to show it is ignored. -/
structure ReqItem where
  product : ProductId
  quantity : Int
  price : Option Int
  deriving Repr, DecidableEq

/-- A requested purchase-order line item: `item.unitPrice` is optional
(client override of the catalog price). -/
structure POReqItem where
  product : ProductId
  quantity : Int
  unitPrice : Option Int
  deriving Repr, DecidableEq

/-- The per-item loop of `POST /api/orders`: resolve the product, check
sufficiency, snapshot name/price, accumulate the total, and debit the
stock (each debit is saved immediately, so a later failure leaves the
earlier debits in place — the returned store reflects every save made
before the failure). -/
def createOrderLoop (s : PStore) (items : List ReqItem)
    (acc : List OrderItem) (total : Int) :
    PStore × Except Err (List OrderItem × Int) :=
  match items with
  | [] => (s, .ok (acc, total))
  | item :: rest =>
    match findById s item.product with
    | none => (s, .error (.productNotFound item.product))
    | some product =>
      if product.stock < item.quantity then
        (s, .error (.insufficientStock product.name))
      else
        createOrderLoop
          (saveProduct s item.product
            { product with stock := product.stock - item.quantity })
          rest
          (acc ++ [{ product := item.product, productName := product.name,
                     quantity := item.quantity, price := product.price }])
          (total + product.price * item.quantity)

/-- `POST /api/orders`: create a new order for user `uid`, stored under
the (randomly generated, here explicit) id `oid`. -/
def createOrder (st : State) (oid : OrderId) (uid : Nat)
    (items : List ReqItem) : State × Except Err Order :=
  if items.isEmpty then (st, .error .emptyOrder)
  else
    match createOrderLoop st.products items [] 0 with
    | (ps, .error e) => ({ st with products := ps }, .error e)
    | (ps, .ok (ois, total)) =>
      let order : Order :=
        { user := uid, items := ois, totalAmount := total, status := .pending }
      ({ st with products := ps, orders := saveOrder st.orders oid order },
       .ok order)

/-- The restore loop of `DELETE /api/orders/:id`: credit each line item's
quantity back to its product; items whose product no longer exists are
skipped. -/
def restoreStock (s : PStore) : List OrderItem → PStore
  | [] => s
  | item :: rest =>
    restoreStock
      (match findById s item.product with
       | some product =>
         saveProduct s item.product
           { product with stock := product.stock + item.quantity }
       | none => s)
      rest

/-- `DELETE /api/orders/:id`: cancel an order.  Fails if the order is
absent, the requester is neither admin nor owner, or the status is not
`pending`/`processing`; otherwise restores stock and sets the status to
`cancelled`. -/
def cancelOrder (st : State) (oid : OrderId) (uid : Nat) (isAdmin : Bool) :
    State × Except Err Unit :=
  match st.orders oid with
  | none => (st, .error .notFound)
  | some order =>
    if isAdmin = false ∧ order.user ≠ uid then
      (st, .error .forbidden)
    else if order.status ≠ .pending ∧ order.status ≠ .processing then
      (st, .error .invalidState)
    else
      ({ st with
          products := restoreStock st.products order.items,
          orders := saveOrder st.orders oid { order with status := .cancelled } },
       .ok ())

/-- `PUT /api/orders/:id/status`: unconditional status overwrite; no
transition validation, no stock effect. -/
def updateOrderStatus (st : State) (oid : OrderId) (status : OrderStatus) :
    State × Except Err Order :=
  match st.orders oid with
  | none => (st, .error .notFound)
  | some order =>
    let updated := { order with status := status }
    ({ st with orders := saveOrder st.orders oid updated }, .ok updated)

/-- JavaScript `a || b` on an optional number: an absent value and the
number 0 are both falsy, so `0 || b` evaluates to `b`. -/
def jsOr (a : Option Int) (b : Int) : Int :=
  match a with
  | some c => if c = 0 then b else c
  | none => b

/-- The per-item loop of `POST /api/purchase-orders`: resolve the
product and build the line item.  The source computes the unit price as
`item.unitPrice || product.price`, modelled by `jsOr`. -/
def createPOLoop (s : PStore) (items : List POReqItem)
    (acc : List POItem) (total : Int) :
    Except Err (List POItem × Int) :=
  match items with
  | [] => .ok (acc, total)
  | item :: rest =>
    match findById s item.product with
    | none => .error (.productNotFound item.product)
    | some product =>
      createPOLoop s rest
        (acc ++ [{ product := item.product, productName := product.name,
                   quantity := item.quantity,
                   unitPrice := jsOr item.unitPrice product.price }])
        (total + jsOr item.unitPrice product.price * item.quantity)

/-- `POST /api/purchase-orders`: create a new purchase order, stored
under the (randomly generated, here explicit) id `pid`. -/
def createPurchaseOrder (st : State) (pid : POId) (uid : Nat)
    (supplier : String) (items : List POReqItem) (notes : String) :
    State × Except Err PurchaseOrder :=
  if items.isEmpty then (st, .error .emptyOrder)
  else
    match createPOLoop st.products items [] 0 with
    | .error e => (st, .error e)
    | .ok (pois, total) =>
      let po : PurchaseOrder :=
        { supplier := supplier, items := pois, totalAmount := total,
          status := .pending, createdBy := uid, receivedDate := none,
          notes := notes }
      ({ st with pos := savePO st.pos pid po }, .ok po)

/-- The credit loop of `PUT /api/purchase-orders/:id/status` on first
receipt: credit each line item's quantity to its product; items whose
product no longer exists are skipped. -/
def creditStock (s : PStore) : List POItem → PStore
  | [] => s
  | item :: rest =>
    creditStock
      (match findById s item.product with
       | some product =>
         saveProduct s item.product
           { product with stock := product.stock + item.quantity }
       | none => s)
      rest

/-- `PUT /api/purchase-orders/:id/status`: overwrite the status; when
the new status is `received` and `receivedDate` is not yet set, set
`receivedDate` (to `now`) and credit stock for every line item — the
presence of `receivedDate` is the guard against double-crediting. -/
def updatePurchaseOrderStatus (st : State) (pid : POId) (status : POStatus)
    (now : Nat) : State × Except Err PurchaseOrder :=
  match st.pos pid with
  | none => (st, .error .notFound)
  | some po =>
    if status = .received ∧ po.receivedDate = none then
      let updated :=
        { po with status := status, receivedDate := some now }
      ({ st with
          products := creditStock st.products po.items,
          pos := savePO st.pos pid updated },
       .ok updated)
    else
      let updated := { po with status := status }
      ({ st with pos := savePO st.pos pid updated }, .ok updated)

/-- `PUT /api/purchase-orders/:id`: arbitrary field update (the source
passes `req.body` to `findByIdAndUpdate`, modelled as an arbitrary
`patch` function), refused when the status is already `received`. -/
def updatePurchaseOrder (st : State) (pid : POId)
    (patch : PurchaseOrder → PurchaseOrder) :
    State × Except Err PurchaseOrder :=
  match st.pos pid with
  | none => (st, .error .notFound)
  | some po =>
    if po.status = .received then
      (st, .error .invalidState)
    else
      let updated := patch po
      ({ st with pos := savePO st.pos pid updated }, .ok updated)

/-- `DELETE /api/purchase-orders/:id`: remove the document, refused when
the status is already `received`. -/
def deletePurchaseOrder (st : State) (pid : POId) :
    State × Except Err Unit :=
  match st.pos pid with
  | none => (st, .error .notFound)
  | some po =>
    if po.status = .received then
      (st, .error .invalidState)
    else
      ({ st with pos := fun j => if j = pid then none else st.pos j },
       .ok ())

/-! ### Statement helpers -/

/-- The stock invariant: every stored product has a non-negative stock. -/
def stocksNonneg (s : PStore) : Prop :=
  ∀ i p, s i = some p → 0 ≤ p.stock

/-- Schema invariant on stored orders: line-item quantities are
non-negative (the order item schema requires `min: 1`). -/
def ordersQtyNonneg (s : OStore) : Prop :=
  ∀ oid o, s oid = some o → ∀ it ∈ o.items, 0 ≤ it.quantity

/-- Schema invariant on stored purchase orders: line-item quantities are
non-negative (`purchaseOrderItemSchema` requires `min: 1`). -/
def posQtyNonneg (s : POStore) : Prop :=
  ∀ pid po, s pid = some po → ∀ it ∈ po.items, 0 ≤ it.quantity

/-- Total quantity that the order line items `items` carry for product
`i` (what a full restore loop credits to `i`). -/
def restoredQty (i : ProductId) (items : List OrderItem) : Int :=
  ((items.filter (fun it => it.product = i)).map (fun it => it.quantity)).sum

/-- Total quantity that the PO line items `items` carry for product `i`
(what a full receipt credit loop credits to `i`). -/
def creditedQty (i : ProductId) (items : List POItem) : Int :=
  ((items.filter (fun it => it.product = i)).map (fun it => it.quantity)).sum

/-- The line-item snapshot an order stores for a request item: product
reference and requested quantity plus the product's catalog name and
price (none if the product does not exist). -/
def snapItem (s : PStore) (it : ReqItem) : Option OrderItem :=
  (s it.product).map fun p =>
    { product := it.product, productName := p.name,
      quantity := it.quantity, price := p.price }

/-- Snapshots for a whole request, `none` if any product is missing. -/
def snapItems (s : PStore) : List ReqItem → Option (List OrderItem)
  | [] => some []
  | it :: rest =>
    match snapItem s it, snapItems s rest with
    | some oi, some ois => some (oi :: ois)
    | _, _ => none

/-- Modelled from the spec (amended pricing rule for purchase orders):
the line item a PO stores for a request item — the unit price is the
client-supplied price when present and nonzero, otherwise the product's
catalog price. -/
def poSnapItem (s : PStore) (it : POReqItem) : Option POItem :=
  (s it.product).map fun p =>
    { product := it.product, productName := p.name, quantity := it.quantity,
      unitPrice :=
        match it.unitPrice with
        | some c => if c ≠ 0 then c else p.price
        | none => p.price }

/-- PO snapshots for a whole request, `none` if any product is missing. -/
def poSnapItems (s : PStore) : List POReqItem → Option (List POItem)
  | [] => some []
  | it :: rest =>
    match poSnapItem s it, poSnapItems s rest with
    | some x, some xs => some (x :: xs)
    | _, _ => none

/-- Two product stores agreeing on existence, name and price of every
product (they may differ in stock only). -/
def samePN (s t : PStore) : Prop :=
  ∀ i, (s i).map (fun p => (p.name, p.price)) = (t i).map (fun p => (p.name, p.price))

/-! ### Concrete sample data used by witnesses and counterexamples -/

/-- Three products: A (price 10, stock 5), B (price 20, stock 5) and
C (price 30, stock 0). -/
def threeProducts : PStore := fun j =>
  if j = 1 then some { name := "A", price := 10, stock := 5 }
  else if j = 2 then some { name := "B", price := 20, stock := 5 }
  else if j = 3 then some { name := "C", price := 30, stock := 0 }
  else none

/-- A state holding the three products and nothing else. -/
def stThree : State :=
  { products := threeProducts, orders := fun _ => none, pos := fun _ => none }

/-- A single already-cancelled order of one unit of product 1, owned by
user 7. -/
def oCancelled : Order :=
  { user := 7,
    items := [{ product := 1, productName := "A", quantity := 1, price := 10 }],
    totalAmount := 10, status := .cancelled }

/-- A state with product 1 at stock 0 and the cancelled order stored
under id 1. -/
def stCancelled : State :=
  { products := fun j => if j = 1 then some { name := "A", price := 10, stock := 0 } else none,
    orders := fun j => if j = 1 then some oCancelled else none,
    pos := fun _ => none }

/-- A state with one product at stock 10 (price 10) and nothing else. -/
def stTen : State :=
  { products := fun j => if j = 1 then some { name := "A", price := 10, stock := 10 } else none,
    orders := fun _ => none, pos := fun _ => none }

/-- A state with one product at stock 2 (price 10) and nothing else. -/
def stTwo : State :=
  { products := fun j => if j = 1 then some { name := "A", price := 10, stock := 2 } else none,
    orders := fun _ => none, pos := fun _ => none }

/-- A pending purchase order for 3 units of product 1 at unit price 7. -/
def poThree : PurchaseOrder :=
  { supplier := "S",
    items := [{ product := 1, productName := "A", quantity := 3, unitPrice := 7 }],
    totalAmount := 21, status := .approved, createdBy := 9,
    receivedDate := none, notes := "" }

/-- A state with product 1 at stock 4 (price 7) and `poThree` stored
under id 1. -/
def stPO : State :=
  { products := fun j => if j = 1 then some { name := "A", price := 7, stock := 4 } else none,
    orders := fun _ => none,
    pos := fun j => if j = 1 then some poThree else none }

/-- An already-received purchase order. -/
def poReceived : PurchaseOrder :=
  { supplier := "S",
    items := [{ product := 1, productName := "A", quantity := 3, unitPrice := 7 }],
    totalAmount := 21, status := .received, createdBy := 9,
    receivedDate := some 50, notes := "" }

/-- A state with product 1 at stock 4 (price 7) and `poReceived` stored
under id 1. -/
def stPORec : State :=
  { products := fun j => if j = 1 then some { name := "A", price := 7, stock := 4 } else none,
    orders := fun _ => none,
    pos := fun j => if j = 1 then some poReceived else none }

/-- A state with one product "A" at price 5, stock 0 (for the PO price
override counterexample). -/
def stPrice : State :=
  { products := fun j => if j = 1 then some { name := "A", price := 5, stock := 0 } else none,
    orders := fun _ => none, pos := fun _ => none }

/-- The order that creating `[⟨1, 2, some 999⟩]` against `stThree`
produces: catalog price 10, client price 999 ignored. -/
def orderW : Order :=
  { user := 7,
    items := [{ product := 1, productName := "A", quantity := 2, price := 10 }],
    totalAmount := 20, status := .pending }

/-- The PO that creating `[⟨1, 2, some 3⟩, ⟨1, 1, none⟩]` against
`stPrice` produces: client price 3 used, absent price falls back to
catalog price 5, total 11. -/
def poW : PurchaseOrder :=
  { supplier := "S",
    items := [{ product := 1, productName := "A", quantity := 2, unitPrice := 3 },
              { product := 1, productName := "A", quantity := 1, unitPrice := 5 }],
    totalAmount := 11, status := .pending, createdBy := 9,
    receivedDate := none, notes := "" }

/-! ### Basic store lemmas -/

theorem saveProduct_self (s : PStore) (i : ProductId) (p : Product) :
    saveProduct s i p i = some p := by
  simp [saveProduct]

theorem saveProduct_ne (s : PStore) (i j : ProductId) (p : Product)
    (h : j ≠ i) : saveProduct s i p j = s j := by
  simp [saveProduct, h]

theorem restoredQty_nil (i : ProductId) : restoredQty i [] = 0 := rfl

theorem restoredQty_cons (i : ProductId) (it : OrderItem) (rest : List OrderItem) :
    restoredQty i (it :: rest) =
      (if it.product = i then it.quantity else 0) + restoredQty i rest := by
  by_cases h : it.product = i <;> simp [restoredQty, List.filter_cons, h]

theorem creditedQty_nil (i : ProductId) : creditedQty i [] = 0 := rfl

theorem creditedQty_cons (i : ProductId) (it : POItem) (rest : List POItem) :
    creditedQty i (it :: rest) =
      (if it.product = i then it.quantity else 0) + creditedQty i rest := by
  by_cases h : it.product = i <;> simp [creditedQty, List.filter_cons, h]

theorem restoredQty_nonneg (i : ProductId) (items : List OrderItem)
    (h : ∀ it ∈ items, 0 ≤ it.quantity) : 0 ≤ restoredQty i items := by
  induction items with
  | nil => simp [restoredQty_nil]
  | cons it rest ih =>
    rw [restoredQty_cons]
    have h1 := h it (by simp)
    have h2 := ih (fun x hx => h x (by simp [hx]))
    split_ifs <;> omega

theorem creditedQty_nonneg (i : ProductId) (items : List POItem)
    (h : ∀ it ∈ items, 0 ≤ it.quantity) : 0 ≤ creditedQty i items := by
  induction items with
  | nil => simp [creditedQty_nil]
  | cons it rest ih =>
    rw [creditedQty_cons]
    have h1 := h it (by simp)
    have h2 := ih (fun x hx => h x (by simp [hx]))
    split_ifs <;> omega

/-- Pointwise effect of the cancellation restore loop: product `i` ends
with its old document, stock increased by the total quantity the items
carry for `i`; absent products stay absent. -/
theorem restoreStock_apply (items : List OrderItem) (s : PStore) (i : ProductId) :
    restoreStock s items i =
      (s i).map (fun p => { p with stock := p.stock + restoredQty i items }) := by
  induction items generalizing s with
  | nil => cases h : s i <;> simp [restoreStock, restoredQty_nil, h]
  | cons it rest ih =>
    rw [restoreStock, ih, restoredQty_cons]
    by_cases hi : it.product = i
    · subst hi
      cases h : s it.product with
      | none => simp [findById, h]
      | some p => simp [findById, h, saveProduct, add_assoc]
    · cases h : s it.product with
      | none => simp [findById, h, hi]
      | some p => simp [findById, h, saveProduct, hi, Ne.symm hi]

/-- Pointwise effect of the receipt credit loop (same shape as the
cancellation restore loop). -/
theorem creditStock_apply (items : List POItem) (s : PStore) (i : ProductId) :
    creditStock s items i =
      (s i).map (fun p => { p with stock := p.stock + creditedQty i items }) := by
  induction items generalizing s with
  | nil => cases h : s i <;> simp [creditStock, creditedQty_nil, h]
  | cons it rest ih =>
    rw [creditStock, ih, creditedQty_cons]
    by_cases hi : it.product = i
    · subst hi
      cases h : s it.product with
      | none => simp [findById, h]
      | some p => simp [findById, h, saveProduct, add_assoc]
    · cases h : s it.product with
      | none => simp [findById, h, hi]
      | some p => simp [findById, h, saveProduct, hi, Ne.symm hi]

/-! ### Claim C8 — single-item insufficient stock -/

/-- C8: a single-item order whose requested quantity exceeds the
product's current stock fails with `InsufficientStock` naming the
product, and the whole state (in particular the product's stock) is
unchanged. -/
theorem C8_insufficientSingle (st : State) (oid : OrderId) (uid : Nat)
    (a : ProductId) (q : Int) (cp : Option Int) (p : Product)
    (hp : st.products a = some p) (hq : p.stock < q) :
    createOrder st oid uid [⟨a, q, cp⟩] = (st, .error (.insufficientStock p.name)) := by
  simp only [createOrder, List.isEmpty_cons, Bool.false_eq_true, if_false,
    createOrderLoop, findById, hp, if_pos hq]

/-- Witness for C8 at the spec's scenario: stock 2, requested 5. -/
theorem C8_insufficientSingle_witness :
    createOrder stTwo 0 7 [⟨1, 5, none⟩] =
      (stTwo, .error (.insufficientStock "A")) :=
  C8_insufficientSingle stTwo 0 7 1 5 none
    { name := "A", price := 10, stock := 2 } rfl (by decide)

/-! ### Claim C9 — received purchase orders are frozen -/

/-- C9: on a purchase order whose status is `received`, both the field
update and the delete handler fail with `InvalidState` and leave the
entire state (purchase order and all product stocks) unchanged. -/
theorem C9_receivedFrozen (st : State) (pid : POId) (po : PurchaseOrder)
    (hf : st.pos pid = some po) (hst : po.status = .received) :
    (∀ patch, updatePurchaseOrder st pid patch = (st, .error .invalidState)) ∧
    deletePurchaseOrder st pid = (st, .error .invalidState) := by
  constructor
  · intro patch
    simp only [updatePurchaseOrder, hf, hst, if_pos]
  · simp only [deletePurchaseOrder, hf, hst, if_pos]

/-- Witness for C9: a concrete received PO, updated with the identity
patch and deleted. -/
theorem C9_receivedFrozen_witness :
    updatePurchaseOrder stPORec 1 (fun po => po) = (stPORec, .error .invalidState) ∧
    deletePurchaseOrder stPORec 1 = (stPORec, .error .invalidState) :=
  ⟨(C9_receivedFrozen stPORec 1 poReceived rfl rfl).1 (fun po => po),
   (C9_receivedFrozen stPORec 1 poReceived rfl rfl).2⟩

/-! ### Claim C10 — status update touches only the status -/

/-- C10: `PUT /api/orders/:id/status` (for any new status, `cancelled`
included) changes no product stock, no purchase order, and no other
order; the targeted order, when present, changes exactly its status
field. -/
theorem C10_statusOnlyFrame (st : State) (oid : OrderId) (status : OrderStatus) :
    (updateOrderStatus st oid status).1.products = st.products ∧
    (updateOrderStatus st oid status).1.pos = st.pos ∧
    (∀ j, j ≠ oid → (updateOrderStatus st oid status).1.orders j = st.orders j) ∧
    (∀ o, st.orders oid = some o →
      (updateOrderStatus st oid status).1.orders oid = some { o with status := status }) := by
  rw [updateOrderStatus]
  cases h : st.orders oid with
  | none =>
    exact ⟨rfl, rfl, fun j hj => rfl, fun o ho => by cases ho⟩
  | some order =>
    refine ⟨rfl, rfl, fun j hj => ?_, fun o ho => ?_⟩
    · simp [saveOrder, hj]
    · cases ho
      simp [saveOrder]

/-- Witness for C10: setting the stored order to `cancelled` leaves
products and other slots unchanged and only rewrites the status. -/
theorem C10_statusOnlyFrame_witness :
    (updateOrderStatus stCancelled 1 .cancelled).1.products = stCancelled.products ∧
    (updateOrderStatus stCancelled 1 .cancelled).1.orders 2 = stCancelled.orders 2 ∧
    (updateOrderStatus stCancelled 1 .cancelled).1.orders 1 =
      some { oCancelled with status := .cancelled } :=
  ⟨(C10_statusOnlyFrame stCancelled 1 .cancelled).1,
   (C10_statusOnlyFrame stCancelled 1 .cancelled).2.2.1 2 (by decide),
   (C10_statusOnlyFrame stCancelled 1 .cancelled).2.2.2 oCancelled rfl⟩

/-! ### Claim C5 — cancelled orders (corrected) -/

/-- C5 (counterexample to the claim as stated): for the cancelled order
`oCancelled` stored in `stCancelled` (product 1 at stock 0), the
sequence "overwrite the status to `pending`, then cancel" credits the
item quantity to product 1 again — a sequence of core operations on a
cancelled order that does change a product's stock. -/
theorem C5_counterexample :
    stCancelled.orders 1 = some oCancelled ∧
    oCancelled.status = .cancelled ∧
    stCancelled.products 1 = some { name := "A", price := 10, stock := 0 } ∧
    (cancelOrder (updateOrderStatus stCancelled 1 .pending).1 1 7 false).1.products 1 =
      some { name := "A", price := 10, stock := 1 } :=
  ⟨rfl, rfl, rfl, rfl⟩

/-- C5 (amended): once an order's status is `cancelled`, a direct
`CancelOrder` on it fails and leaves the whole state unchanged, and
`UpdateOrderStatus` never changes any product's stock; the original
"no sequence of operations" form fails because `UpdateOrderStatus` can
first overwrite the status back to `pending` (see the counterexample). -/
theorem C5_cancelledFrozenSingleOp (st : State) (oid : OrderId) (o : Order)
    (hfind : st.orders oid = some o) (hst : o.status = .cancelled) :
    (∀ uid isAdmin, (cancelOrder st oid uid isAdmin).1 = st ∧
      ∃ e, (cancelOrder st oid uid isAdmin).2 = .error e) ∧
    (∀ status, (updateOrderStatus st oid status).1.products = st.products) := by
  constructor
  · intro uid isAdmin
    simp only [cancelOrder, hfind]
    split_ifs with h1 h2
    · exact ⟨rfl, ⟨.forbidden, rfl⟩⟩
    · exact ⟨rfl, ⟨.invalidState, rfl⟩⟩
    · exact absurd ⟨by simp [hst], by simp [hst]⟩ h2
  · intro status
    rw [updateOrderStatus, hfind]

/-- Witness for the amended C5 at the concrete cancelled order. -/
theorem C5_cancelledFrozenSingleOp_witness :
    (cancelOrder stCancelled 1 7 false).1 = stCancelled ∧
    (∃ e, (cancelOrder stCancelled 1 7 false).2 = .error e) ∧
    (updateOrderStatus stCancelled 1 .shipped).1.products = stCancelled.products :=
  ⟨((C5_cancelledFrozenSingleOp stCancelled 1 oCancelled rfl rfl).1 7 false).1,
   ((C5_cancelledFrozenSingleOp stCancelled 1 oCancelled rfl rfl).1 7 false).2,
   (C5_cancelledFrozenSingleOp stCancelled 1 oCancelled rfl rfl).2 .shipped⟩

/-! ### Claim C2 — the stock invariant -/

theorem stocksNonneg_saveProduct (s : PStore) (i : ProductId) (p : Product)
    (hs : stocksNonneg s) (hp : 0 ≤ p.stock) :
    stocksNonneg (saveProduct s i p) := by
  intro j q hq
  by_cases hj : j = i
  · rw [saveProduct] at hq
    simp only [hj, if_pos] at hq
    cases hq
    exact hp
  · rw [saveProduct] at hq
    simp only [hj, if_false] at hq
    exact hs j q hq

/-- The order-creation loop keeps every stock non-negative: each debit
is guarded by the sufficiency check. -/
theorem createOrderLoop_preserves_nonneg (items : List ReqItem) (s : PStore)
    (acc : List OrderItem) (total : Int) (hs : stocksNonneg s) :
    stocksNonneg (createOrderLoop s items acc total).1 := by
  induction items generalizing s acc total with
  | nil => simpa [createOrderLoop] using hs
  | cons item rest ih =>
    rw [createOrderLoop]
    split
    · exact hs
    · rename_i product h
      split
      · exact hs
      · rename_i hlt
        exact ih _ _ _
          (stocksNonneg_saveProduct _ _ _ hs (Int.sub_nonneg.mpr (not_lt.mp hlt)))

/-- C2: from a state where all stocks are non-negative and all stored
line-item quantities are non-negative (the item schemas require
`min: 1`), every core operation — order creation (successful or not),
cancellation, order status update and purchase-order status update —
leaves every product's stock non-negative. -/
theorem C2_stockNonneg (st : State)
    (hs : stocksNonneg st.products)
    (ho : ordersQtyNonneg st.orders)
    (hp : posQtyNonneg st.pos) :
    (∀ oid uid items, stocksNonneg ((createOrder st oid uid items).1.products)) ∧
    (∀ oid uid isAdmin, stocksNonneg ((cancelOrder st oid uid isAdmin).1.products)) ∧
    (∀ oid status, stocksNonneg ((updateOrderStatus st oid status).1.products)) ∧
    (∀ pid status now,
      stocksNonneg ((updatePurchaseOrderStatus st pid status now).1.products)) := by
  refine ⟨?_, ?_, ?_, ?_⟩
  · intro oid uid items
    rw [createOrder]
    split_ifs
    · exact hs
    · have hloop := createOrderLoop_preserves_nonneg items st.products [] 0 hs
      cases h : createOrderLoop st.products items [] 0 with
      | mk ps r =>
        rw [h] at hloop
        cases r with
        | error e => exact hloop
        | ok v => cases v with | mk ois total => exact hloop
  · intro oid uid isAdmin
    rw [cancelOrder]
    split
    · exact hs
    · rename_i order h
      split_ifs with h1 h2
      · exact hs
      · exact hs
      · intro i p hpi
        dsimp only at hpi
        rw [restoreStock_apply] at hpi
        cases hsp : st.products i with
        | none => rw [hsp] at hpi; cases hpi
        | some q =>
          rw [hsp] at hpi
          simp only [Option.map_some'] at hpi
          cases hpi
          have hq : 0 ≤ q.stock := hs i q hsp
          have hr : 0 ≤ restoredQty i order.items :=
            restoredQty_nonneg i order.items (ho oid order h)
          simpa using add_nonneg hq hr
  · intro oid status
    rw [updateOrderStatus]
    cases h : st.orders oid with
    | none => exact hs
    | some order => exact hs
  · intro pid status now
    rw [updatePurchaseOrderStatus]
    split
    · exact hs
    · rename_i po h
      split_ifs with h1
      · intro i p hpi
        dsimp only at hpi
        rw [creditStock_apply] at hpi
        cases hsp : st.products i with
        | none => rw [hsp] at hpi; cases hpi
        | some q =>
          rw [hsp] at hpi
          simp only [Option.map_some'] at hpi
          cases hpi
          have hq : 0 ≤ q.stock := hs i q hsp
          have hr : 0 ≤ creditedQty i po.items :=
            creditedQty_nonneg i po.items (hp pid po h)
          simpa using add_nonneg hq hr
      · exact hs

/-- Witness for C2 on the three-product sample state: order creation,
cancellation, status update and PO status update all keep stocks
non-negative. -/
theorem C2_stockNonneg_witness :
    stocksNonneg ((createOrder stThree 0 7 [⟨1, 2, none⟩]).1.products) ∧
    stocksNonneg ((cancelOrder stThree 1 7 false).1.products) ∧
    stocksNonneg ((updateOrderStatus stThree 1 .shipped).1.products) ∧
    stocksNonneg ((updatePurchaseOrderStatus stThree 1 .received 5).1.products) := by
  have hs : stocksNonneg stThree.products := by
    intro i p hp
    simp only [stThree, threeProducts] at hp
    split_ifs at hp <;> cases hp <;> decide
  have ho : ordersQtyNonneg stThree.orders := by
    intro oid o h
    simp [stThree] at h
  have hp : posQtyNonneg stThree.pos := by
    intro pid po h
    simp [stThree] at h
  have h := C2_stockNonneg stThree hs ho hp
  exact ⟨h.1 0 7 [⟨1, 2, none⟩], h.2.1 1 7 false, h.2.2.1 1 .shipped,
         h.2.2.2 1 .received 5⟩

/-! ### Claim C3 — receipt is idempotent -/

/-- C3: marking a PO `received` twice. The first call credits every
referenced product exactly the total quantity its items carry (products
absent from the store stay absent) and stamps `receivedDate`; the second
call changes no product's stock and keeps the original `receivedDate`. -/
theorem C3_receiveIdempotent (st : State) (pid : POId) (po : PurchaseOrder)
    (now1 now2 : Nat) (hfind : st.pos pid = some po)
    (hnew : po.receivedDate = none) :
    (∀ i, (updatePurchaseOrderStatus st pid .received now1).1.products i =
        (st.products i).map
          (fun p => { p with stock := p.stock + creditedQty i po.items })) ∧
    (updatePurchaseOrderStatus st pid .received now1).1.pos pid =
      some { po with status := .received, receivedDate := some now1 } ∧
    (∀ i, (updatePurchaseOrderStatus
        (updatePurchaseOrderStatus st pid .received now1).1 pid .received now2).1.products i =
      (updatePurchaseOrderStatus st pid .received now1).1.products i) ∧
    (updatePurchaseOrderStatus
        (updatePurchaseOrderStatus st pid .received now1).1 pid .received now2).1.pos pid =
      some { po with status := .received, receivedDate := some now1 } := by
  have e1 : updatePurchaseOrderStatus st pid .received now1 =
      ({ st with
          products := creditStock st.products po.items,
          pos := savePO st.pos pid
            { po with status := .received, receivedDate := some now1 } },
       .ok { po with status := .received, receivedDate := some now1 }) := by
    simp [updatePurchaseOrderStatus, hfind, hnew]
  rw [e1]
  refine ⟨fun i => creditStock_apply po.items st.products i, by simp [savePO],
          fun i => ?_, ?_⟩
  · simp [updatePurchaseOrderStatus, savePO]
  · simp [updatePurchaseOrderStatus, savePO]

/-- Witness for C3 at the spec's scenario: a PO of 3 units of product 1
(stock 4) is received twice; the first call moves the stock to 7 and
stamps date 100, the second changes nothing. -/
theorem C3_receiveIdempotent_witness :
    (updatePurchaseOrderStatus stPO 1 .received 100).1.products 1 =
      (stPO.products 1).map
        (fun p => { p with stock := p.stock + creditedQty 1 poThree.items }) ∧
    (updatePurchaseOrderStatus stPO 1 .received 100).1.pos 1 =
      some { poThree with status := .received, receivedDate := some 100 } ∧
    (updatePurchaseOrderStatus
        (updatePurchaseOrderStatus stPO 1 .received 100).1 1 .received 200).1.products 1 =
      (updatePurchaseOrderStatus stPO 1 .received 100).1.products 1 ∧
    (updatePurchaseOrderStatus
        (updatePurchaseOrderStatus stPO 1 .received 100).1 1 .received 200).1.pos 1 =
      some { poThree with status := .received, receivedDate := some 100 } ∧
    (updatePurchaseOrderStatus stPO 1 .received 100).1.products 1 =
      some { name := "A", price := 7, stock := 7 } :=
  ⟨(C3_receiveIdempotent stPO 1 poThree 100 200 rfl rfl).1 1,
   (C3_receiveIdempotent stPO 1 poThree 100 200 rfl rfl).2.1,
   (C3_receiveIdempotent stPO 1 poThree 100 200 rfl rfl).2.2.1 1,
   (C3_receiveIdempotent stPO 1 poThree 100 200 rfl rfl).2.2.2,
   rfl⟩

/-! ### Claim C4 — cancellation undoes creation -/

/-- C4: for a product with stock `p.stock` and a requested quantity
`q ≤ p.stock`, creating a single-item order succeeds (debiting `q` and
pricing at the catalog price) and cancelling that order by its owner
restores every product slot — in particular the debited one — to its
pre-order value. -/
theorem C4_cancelRestoresStock (st : State) (pid : ProductId) (p : Product)
    (q : Int) (cp : Option Int) (oid : OrderId) (uid : Nat)
    (hp : st.products pid = some p) (hq : q ≤ p.stock) :
    (createOrder st oid uid [⟨pid, q, cp⟩]).2 =
      .ok { user := uid,
            items := [{ product := pid, productName := p.name,
                        quantity := q, price := p.price }],
            totalAmount := p.price * q, status := .pending } ∧
    (createOrder st oid uid [⟨pid, q, cp⟩]).1.products pid =
      some { p with stock := p.stock - q } ∧
    (∀ j, (cancelOrder (createOrder st oid uid [⟨pid, q, cp⟩]).1 oid uid false).1.products j
        = st.products j) ∧
    (cancelOrder (createOrder st oid uid [⟨pid, q, cp⟩]).1 oid uid false).2 = .ok () := by
  have hnlt : ¬ p.stock < q := not_lt.mpr hq
  have e1 : createOrder st oid uid [⟨pid, q, cp⟩] =
      ({ st with
          products := saveProduct st.products pid { p with stock := p.stock - q },
          orders := saveOrder st.orders oid
            { user := uid,
              items := [{ product := pid, productName := p.name,
                          quantity := q, price := p.price }],
              totalAmount := p.price * q, status := .pending } },
       .ok { user := uid,
             items := [{ product := pid, productName := p.name,
                         quantity := q, price := p.price }],
             totalAmount := p.price * q, status := .pending }) := by
    simp [createOrder, createOrderLoop, findById, hp, hnlt]
  rw [e1]
  have e2 : cancelOrder
      ({ st with
          products := saveProduct st.products pid { p with stock := p.stock - q },
          orders := saveOrder st.orders oid
            { user := uid,
              items := [{ product := pid, productName := p.name,
                          quantity := q, price := p.price }],
              totalAmount := p.price * q, status := .pending } } : State)
      oid uid false =
      ({ st with
          products := restoreStock
            (saveProduct st.products pid { p with stock := p.stock - q })
            [{ product := pid, productName := p.name, quantity := q, price := p.price }],
          orders := saveOrder
            (saveOrder st.orders oid
              { user := uid,
                items := [{ product := pid, productName := p.name,
                            quantity := q, price := p.price }],
                totalAmount := p.price * q, status := .pending })
            oid
            { user := uid,
              items := [{ product := pid, productName := p.name,
                          quantity := q, price := p.price }],
              totalAmount := p.price * q, status := .cancelled } },
       .ok ()) := by
    simp only [cancelOrder, saveOrder]
    simp
  rw [e2]
  refine ⟨rfl, by simp [saveProduct], fun j => ?_, rfl⟩
  dsimp only
  rw [restoreStock_apply]
  by_cases hj : j = pid
  · subst hj
    rw [saveProduct_self]
    rw [hp]
    simp [restoredQty_cons, restoredQty_nil]
  · rw [saveProduct_ne _ _ _ _ hj]
    cases hsj : st.products j with
    | none => simp
    | some r =>
      have : restoredQty j [{ product := pid, productName := p.name,
                              quantity := q, price := p.price }] = 0 := by
        rw [restoredQty_cons, restoredQty_nil]
        simp [Ne.symm hj]
      simp [this]

/-- Witness for C4 at the spec's scenario: stock 10, order quantity 4 at
price 10 (total 40, stock 6), then cancel (stock back to 10). -/
theorem C4_cancelRestoresStock_witness :
    (createOrder stTen 5 7 [⟨1, 4, none⟩]).2 =
      .ok { user := 7,
            items := [{ product := 1, productName := "A", quantity := 4, price := 10 }],
            totalAmount := 40, status := .pending } ∧
    (createOrder stTen 5 7 [⟨1, 4, none⟩]).1.products 1 =
      some { name := "A", price := 10, stock := 6 } ∧
    (cancelOrder (createOrder stTen 5 7 [⟨1, 4, none⟩]).1 5 7 false).1.products 1 =
      stTen.products 1 ∧
    (cancelOrder (createOrder stTen 5 7 [⟨1, 4, none⟩]).1 5 7 false).2 = .ok () :=
  ⟨(C4_cancelRestoresStock stTen 1 { name := "A", price := 10, stock := 10 }
      4 none 5 7 rfl (by decide)).1,
   (C4_cancelRestoresStock stTen 1 { name := "A", price := 10, stock := 10 }
      4 none 5 7 rfl (by decide)).2.1,
   (C4_cancelRestoresStock stTen 1 { name := "A", price := 10, stock := 10 }
      4 none 5 7 rfl (by decide)).2.2.1 1,
   (C4_cancelRestoresStock stTen 1 { name := "A", price := 10, stock := 10 }
      4 none 5 7 rfl (by decide)).2.2.2⟩

/-! ### Claim C1 — no rollback of partial debits (corrected) -/

/-- C1 (counterexample to the claim as stated): a three-item order that
fails the stock check on item 3 of 3 leaves the stocks of the products
of items 1 and 2 debited (5 → 3 each), not unchanged. -/
theorem C1_counterexample :
    (createOrder stThree 0 7 [⟨1, 2, none⟩, ⟨2, 2, none⟩, ⟨3, 1, none⟩]).2 =
      .error (.insufficientStock "C") ∧
    stThree.products 1 = some { name := "A", price := 10, stock := 5 } ∧
    (createOrder stThree 0 7 [⟨1, 2, none⟩, ⟨2, 2, none⟩, ⟨3, 1, none⟩]).1.products 1 =
      some { name := "A", price := 10, stock := 3 } ∧
    stThree.products 2 = some { name := "B", price := 20, stock := 5 } ∧
    (createOrder stThree 0 7 [⟨1, 2, none⟩, ⟨2, 2, none⟩, ⟨3, 1, none⟩]).1.products 2 =
      some { name := "B", price := 20, stock := 3 } :=
  ⟨rfl, rfl, rfl, rfl, rfl⟩

/-- C1 (amended): when order creation fails validation on item 3 of 3
(three distinct products, items 1 and 2 sufficient, item 3 not), the
operation fails with `InsufficientStock`, but the debits already applied
for items 1 and 2 persist: their stocks end debited by their quantities,
with no rollback. -/
theorem C1_partialDebitPersists (st : State) (oid : OrderId) (uid : Nat)
    (a1 a2 a3 : ProductId) (q1 q2 q3 : Int) (c1 c2 c3 : Option Int)
    (p1 p2 p3 : Product)
    (h1 : st.products a1 = some p1) (h2 : st.products a2 = some p2)
    (h3 : st.products a3 = some p3)
    (d21 : a2 ≠ a1) (d31 : a3 ≠ a1) (d32 : a3 ≠ a2)
    (hs1 : q1 ≤ p1.stock) (hs2 : q2 ≤ p2.stock) (hs3 : p3.stock < q3) :
    (createOrder st oid uid [⟨a1, q1, c1⟩, ⟨a2, q2, c2⟩, ⟨a3, q3, c3⟩]).2 =
      .error (.insufficientStock p3.name) ∧
    (createOrder st oid uid [⟨a1, q1, c1⟩, ⟨a2, q2, c2⟩, ⟨a3, q3, c3⟩]).1.products a1 =
      some { p1 with stock := p1.stock - q1 } ∧
    (createOrder st oid uid [⟨a1, q1, c1⟩, ⟨a2, q2, c2⟩, ⟨a3, q3, c3⟩]).1.products a2 =
      some { p2 with stock := p2.stock - q2 } := by
  have hn1 : ¬ p1.stock < q1 := not_lt.mpr hs1
  have hn2 : ¬ p2.stock < q2 := not_lt.mpr hs2
  have e1 : createOrder st oid uid [⟨a1, q1, c1⟩, ⟨a2, q2, c2⟩, ⟨a3, q3, c3⟩] =
      ({ st with
          products := saveProduct
            (saveProduct st.products a1 { p1 with stock := p1.stock - q1 }) a2
            { p2 with stock := p2.stock - q2 } },
       .error (.insufficientStock p3.name)) := by
    simp [createOrder, createOrderLoop, findById, saveProduct,
      h1, h2, h3, hn1, hn2, hs3, d21, d31, d32]
  rw [e1]
  refine ⟨rfl, ?_, ?_⟩
  · dsimp only
    rw [saveProduct_ne _ _ _ _ (Ne.symm d21), saveProduct_self]
  · dsimp only
    rw [saveProduct_self]

/-- Witness for the amended C1 at the concrete three-product state. -/
theorem C1_partialDebitPersists_witness :
    (createOrder stThree 4 7 [⟨1, 2, none⟩, ⟨2, 2, none⟩, ⟨3, 1, none⟩]).2 =
      .error (.insufficientStock "C") ∧
    (createOrder stThree 4 7 [⟨1, 2, none⟩, ⟨2, 2, none⟩, ⟨3, 1, none⟩]).1.products 1 =
      some { name := "A", price := 10, stock := 3 } ∧
    (createOrder stThree 4 7 [⟨1, 2, none⟩, ⟨2, 2, none⟩, ⟨3, 1, none⟩]).1.products 2 =
      some { name := "B", price := 20, stock := 3 } :=
  ⟨(C1_partialDebitPersists stThree 4 7 1 2 3 2 2 1 none none none
      { name := "A", price := 10, stock := 5 }
      { name := "B", price := 20, stock := 5 }
      { name := "C", price := 30, stock := 0 }
      rfl rfl rfl (by decide) (by decide) (by decide)
      (by decide) (by decide) (by decide)).1,
   (C1_partialDebitPersists stThree 4 7 1 2 3 2 2 1 none none none
      { name := "A", price := 10, stock := 5 }
      { name := "B", price := 20, stock := 5 }
      { name := "C", price := 30, stock := 0 }
      rfl rfl rfl (by decide) (by decide) (by decide)
      (by decide) (by decide) (by decide)).2.1,
   (C1_partialDebitPersists stThree 4 7 1 2 3 2 2 1 none none none
      { name := "A", price := 10, stock := 5 }
      { name := "B", price := 20, stock := 5 }
      { name := "C", price := 30, stock := 0 }
      rfl rfl rfl (by decide) (by decide) (by decide)
      (by decide) (by decide) (by decide)).2.2⟩

/-! ### Claim C6 — order totals use the live catalog price -/

theorem samePN_trans {s t u : PStore} (h1 : samePN s t) (h2 : samePN t u) :
    samePN s u :=
  fun i => (h1 i).trans (h2 i)

/-- Overwriting only the stock of an existing product preserves
existence, name and price of every product. -/
theorem samePN_saveStock (s : PStore) (i : ProductId) (p : Product) (x : Int)
    (h : s i = some p) :
    samePN s (saveProduct s i { p with stock := x }) := by
  intro j
  by_cases hj : j = i
  · subst hj
    simp [saveProduct, h]
  · simp [saveProduct, hj]

theorem snapItem_congr {s t : PStore} (h : samePN s t) (it : ReqItem) :
    snapItem s it = snapItem t it := by
  have hpn := h it.product
  cases hs : s it.product with
  | none =>
    cases ht : t it.product with
    | none => simp [snapItem, hs, ht]
    | some q => rw [hs, ht] at hpn; simp at hpn
  | some p =>
    cases ht : t it.product with
    | none => rw [hs, ht] at hpn; simp at hpn
    | some q =>
      rw [hs, ht] at hpn
      simp only [Option.map_some', Option.some.injEq, Prod.mk.injEq] at hpn
      simp [snapItem, hs, ht, hpn.1, hpn.2]

theorem snapItems_congr {s t : PStore} (h : samePN s t) (items : List ReqItem) :
    snapItems s items = snapItems t items := by
  induction items with
  | nil => rfl
  | cons it rest ih => simp [snapItems, snapItem_congr h it, ih]

/-- The order-creation loop only ever changes stocks, never names or
prices. -/
theorem createOrderLoop_samePN (items : List ReqItem) (s : PStore)
    (acc : List OrderItem) (total : Int) :
    samePN s (createOrderLoop s items acc total).1 := by
  induction items generalizing s acc total with
  | nil => intro i; rfl
  | cons item rest ih =>
    rw [createOrderLoop]
    split
    · intro i; rfl
    · rename_i product h
      split
      · intro i; rfl
      · exact samePN_trans (samePN_saveStock s item.product product _ h) (ih _ _ _)

/-- Characterization of a successful run of the order-creation loop:
the produced line items are exactly the name/price snapshots taken
against the store the loop started from, and the total is the sum of
snapshot price times quantity. -/
theorem createOrderLoop_ok (items : List ReqItem) (s : PStore)
    (acc : List OrderItem) (total : Int) (ps : PStore) (ois : List OrderItem)
    (t : Int) (h : createOrderLoop s items acc total = (ps, .ok (ois, t))) :
    ∃ tail, snapItems s items = some tail ∧ ois = acc ++ tail ∧
      t = total + (tail.map (fun oi => oi.price * oi.quantity)).sum := by
  induction items generalizing s acc total with
  | nil =>
    simp only [createOrderLoop, Prod.mk.injEq, Except.ok.injEq] at h
    obtain ⟨h1, h2, h3⟩ := h
    exact ⟨[], rfl, by simp [h2], by simp [h3]⟩
  | cons item rest ih =>
    rw [createOrderLoop] at h
    split at h
    · simp at h
    · rename_i product hf
      split at h
      · simp at h
      · rename_i hlt
        obtain ⟨tail, ht1, ht2, ht3⟩ := ih _ _ _ h
        have hpn : samePN s (saveProduct s item.product
            { product with stock := product.stock - item.quantity }) :=
          samePN_saveStock s item.product product _ hf
        refine ⟨{ product := item.product, productName := product.name,
                  quantity := item.quantity, price := product.price } :: tail,
                ?_, ?_, ?_⟩
        · have hrest : snapItems s rest = some tail := by
            rw [snapItems_congr hpn rest]; exact ht1
          simp [snapItems, snapItem, show s item.product = some product from hf, hrest]
        · rw [ht2, List.append_assoc]; rfl
        · rw [ht3]; simp [add_assoc]

/-- Stripping a client-supplied price from every request item does not
change the order-creation loop in any way: the handler never reads it. -/
theorem createOrderLoop_stripPrice (items : List ReqItem) (s : PStore)
    (acc : List OrderItem) (total : Int) :
    createOrderLoop s (items.map (fun it => { it with price := none })) acc total =
      createOrderLoop s items acc total := by
  induction items generalizing s acc total with
  | nil => rfl
  | cons item rest ih =>
    rw [List.map_cons, createOrderLoop, createOrderLoop]
    dsimp only
    split
    · rfl
    · split
      · rfl
      · exact ih _ _ _

/-- C6: a successful order creation prices every line item from the
product catalog — the items are exactly the name/price snapshots against
the request-time store, `totalAmount` is the sum of snapshot price times
quantity, the order starts `pending` under the requesting user, and any
client-supplied prices are ignored entirely (stripping them yields the
identical result). -/
theorem C6_orderTotalCatalogPrice (st : State) (oid : OrderId) (uid : Nat)
    (items : List ReqItem) (order : Order)
    (h : (createOrder st oid uid items).2 = .ok order) :
    snapItems st.products items = some order.items ∧
    order.totalAmount = (order.items.map (fun oi => oi.price * oi.quantity)).sum ∧
    order.status = .pending ∧ order.user = uid ∧
    createOrder st oid uid (items.map (fun it => { it with price := none })) =
      createOrder st oid uid items := by
  have hstrip : createOrder st oid uid (items.map (fun it => { it with price := none })) =
      createOrder st oid uid items := by
    have hie : (items.map (fun it => { it with price := none })).isEmpty = items.isEmpty := by
      cases items <;> rfl
    simp only [createOrder, createOrderLoop_stripPrice, hie]
  rw [createOrder] at h
  by_cases he : items.isEmpty = true
  · rw [if_pos he] at h; simp at h
  · rw [if_neg he] at h
    cases hl : createOrderLoop st.products items [] 0 with
    | mk ps r =>
      rw [hl] at h
      cases r with
      | error e => simp at h
      | ok v =>
        cases v with
        | mk ois total =>
          dsimp only at h
          injection h with h2
          subst h2
          obtain ⟨tail, ht1, ht2, ht3⟩ :=
            createOrderLoop_ok items st.products [] 0 ps ois total hl
          refine ⟨?_, ?_, rfl, rfl, hstrip⟩
          · rw [ht1]
            simp [ht2]
          · rw [ht3, ht2]
            simp

/-- Witness for C6: against the three-product store, requesting 2 units
of product 1 with a client price of 999 yields `orderW`: catalog price
10 per unit, total 20, client price ignored. -/
theorem C6_orderTotalCatalogPrice_witness :
    snapItems stThree.products [⟨1, 2, some 999⟩] = some orderW.items ∧
    orderW.totalAmount = (orderW.items.map (fun oi => oi.price * oi.quantity)).sum ∧
    orderW.status = .pending ∧ orderW.user = 7 ∧
    createOrder stThree 0 7
        (([⟨1, 2, some 999⟩] : List ReqItem).map (fun it => { it with price := none })) =
      createOrder stThree 0 7 [⟨1, 2, some 999⟩] :=
  C6_orderTotalCatalogPrice stThree 0 7 [⟨1, 2, some 999⟩] orderW rfl

/-! ### Claim C7 — purchase-order pricing (corrected) -/

/-- C7 (counterexample to the claim as stated): a client-supplied unit
price of 0 is present, yet the created line item carries the catalog
price 5 — JavaScript `||` treats 0 as falsy, so "client price when
present" does not hold. -/
theorem C7_counterexample :
    (createPurchaseOrder stPrice 0 9 "S" [⟨1, 2, some 0⟩] "").2 =
      .ok { supplier := "S",
            items := [{ product := 1, productName := "A", quantity := 2, unitPrice := 5 }],
            totalAmount := 10, status := .pending, createdBy := 9,
            receivedDate := none, notes := "" } ∧
    (5 : Int) ≠ 0 :=
  ⟨rfl, by decide⟩

/-- The JS `||` fallback agrees with the amended rule: the client price
when present and nonzero, otherwise the catalog price. -/
theorem jsOr_eq_spec (a : Option Int) (b : Int) :
    jsOr a b = match a with
               | some c => if c ≠ 0 then c else b
               | none => b := by
  cases a with
  | none => rfl
  | some c => by_cases hc : c = 0 <;> simp [jsOr, hc]

/-- Characterization of a successful run of the PO-creation loop: line
items are the snapshots under the amended pricing rule and the total is
the sum of unit price times quantity. -/
theorem createPOLoop_ok (items : List POReqItem) (s : PStore)
    (acc : List POItem) (total : Int) (pois : List POItem) (t : Int)
    (h : createPOLoop s items acc total = .ok (pois, t)) :
    ∃ tail, poSnapItems s items = some tail ∧ pois = acc ++ tail ∧
      t = total + (tail.map (fun it => it.unitPrice * it.quantity)).sum := by
  induction items generalizing acc total with
  | nil =>
    simp only [createPOLoop, Except.ok.injEq, Prod.mk.injEq] at h
    obtain ⟨h1, h2⟩ := h
    exact ⟨[], rfl, by simp [h1], by simp [h2]⟩
  | cons item rest ih =>
    rw [createPOLoop] at h
    split at h
    · simp at h
    · rename_i product hf
      obtain ⟨tail, ht1, ht2, ht3⟩ := ih _ _ h
      rw [jsOr_eq_spec] at ht2 ht3
      refine ⟨{ product := item.product, productName := product.name,
                quantity := item.quantity,
                unitPrice := match item.unitPrice with
                             | some c => if c ≠ 0 then c else product.price
                             | none => product.price } :: tail, ?_, ?_, ?_⟩
      · simp [poSnapItems, poSnapItem, show s item.product = some product from hf, ht1]
      · rw [ht2, List.append_assoc]; rfl
      · rw [ht3]; simp [add_assoc]

/-- C7 (amended): a successful PO creation prices each line item at the
client-supplied price when it is present and nonzero and at the catalog
price otherwise (a client price of 0 is treated as absent by the JS
`||`), `totalAmount` is the sum of unit price times quantity, the PO
starts `pending` with no `receivedDate`, and no product stock changes. -/
theorem C7_poUnitPriceRule (st : State) (pid : POId) (uid : Nat)
    (supplier : String) (items : List POReqItem) (notes : String)
    (po : PurchaseOrder)
    (h : (createPurchaseOrder st pid uid supplier items notes).2 = .ok po) :
    poSnapItems st.products items = some po.items ∧
    po.totalAmount = (po.items.map (fun it => it.unitPrice * it.quantity)).sum ∧
    po.status = .pending ∧ po.receivedDate = none ∧
    (createPurchaseOrder st pid uid supplier items notes).1.products = st.products := by
  rw [createPurchaseOrder] at h
  by_cases he : items.isEmpty = true
  · rw [if_pos he] at h; simp at h
  · rw [if_neg he] at h
    cases hl : createPOLoop st.products items [] 0 with
    | error e => rw [hl] at h; simp at h
    | ok v =>
      cases v with
      | mk pois total =>
        rw [hl] at h
        dsimp only at h
        injection h with h2
        subst h2
        obtain ⟨tail, ht1, ht2, ht3⟩ := createPOLoop_ok items st.products [] 0 pois total hl
        refine ⟨?_, ?_, rfl, rfl, ?_⟩
        · rw [ht1]
          simp [ht2]
        · rw [ht3, ht2]
          simp
        · simp [createPurchaseOrder, he, hl]

/-- Witness for the amended C7: client price 3 is used as supplied, an
absent client price falls back to the catalog price 5, total 11. -/
theorem C7_poUnitPriceRule_witness :
    poSnapItems stPrice.products [⟨1, 2, some 3⟩, ⟨1, 1, none⟩] = some poW.items ∧
    poW.totalAmount = (poW.items.map (fun it => it.unitPrice * it.quantity)).sum ∧
    poW.status = .pending ∧ poW.receivedDate = none ∧
    (createPurchaseOrder stPrice 0 9 "S" [⟨1, 2, some 3⟩, ⟨1, 1, none⟩] "").1.products =
      stPrice.products :=
  C7_poUnitPriceRule stPrice 0 9 "S" [⟨1, 2, some 3⟩, ⟨1, 1, none⟩] "" poW rfl

end Inventory
